import Mathlib

/-
  Verification of the template-resolution engine in `proscli/conductor.py`
  (PROS CLI conductor module): the federated `download` command, the
  local-mode `new`/`upgrade` commands, and the depot-registry `rm-depot`
  command, embedded shallowly as Lean functions.  Line numbers in the
  comments refer to `src/proscli/conductor.py`.
-/

namespace Conductor

/-- A template identifier as used by `download`: a name and a version
string (`prosconductor.providers.Identifier`). -/
structure Identifier where
  name : String
  version : String
deriving DecidableEq

/-- A depot offering of an identifier (`utils.TemplateDescriptor`).  The
source reads `d.depot.config.name` (the name of the offering depot),
flattened here to `depotName`; `online` and `offline` are carried along as
in the source. -/
structure TemplateDescriptor where
  depotName : String
  online : Bool
  offline : Bool
deriving DecidableEq

/-- The name-keyed listing `Identifier -> [TemplateDescriptor]` built by
`utils.get_available_templates`.  Python dicts iterate in insertion order,
so the dict is modelled as an association list. -/
abbrev Listing := List (Identifier × List TemplateDescriptor)

/-- Outcome of the `download` command body.  `ok` means control reached the
final `descriptor.depot.download(identifier)` call (line 202) with a single
descriptor bound; `prompted` records whether the interactive depot prompt
ran.  `attrError` models the AttributeError raised when `descriptor` was
bound to a list (line 172) and `descriptor.depot` is then accessed (line
200); `indexError` models indexing or popping an empty sequence. -/
inductive DownloadOutcome where
  | ok (ident : Identifier) (desc : TemplateDescriptor) (prompted : Bool)
  | aborted (msg : String)
  | attrError
  | indexError
deriving DecidableEq

/-- Lowercasing of an ASCII letter, as `str.lower` does on the ASCII
range (the only range the conductor compares against). -/
def lowerChar (c : Char) : Char :=
  if 65 ≤ c.toNat && c.toNat ≤ 90 then Char.ofNat (c.toNat + 32) else c

/-- `name.lower()` (line 125), modelled characterwise on the code points. -/
def lowerStr (s : String) : String := ⟨s.data.map lowerChar⟩

/-- `int(result)` (line 182) for the nonnegative decimal strings produced by
`str(i)`; other inputs never reach that call. -/
def parseNatAux : List Char → Nat → Option Nat
  | [], acc => some acc
  | c :: cs, acc =>
    if 48 ≤ c.toNat && c.toNat ≤ 57 then parseNatAux cs (acc * 10 + (c.toNat - 48)) else none

/-- Decimal parsing of a string, used to model `int(result)`. -/
def parseNat (s : String) : Option Nat :=
  match s.data with
  | [] => none
  | cs => parseNatAux cs 0

/-- Python string comparison is lexicographic on code points: compare the
underlying character lists. -/
def verLe (s t : String) : Prop := s.data ≤ t.data

instance : DecidableRel verLe :=
  fun s t => inferInstanceAs (Decidable (s.data ≤ t.data))

/-- Lines 125-130: argument aliasing for `download NAME VERSION`.  A name
that case-insensitively equals `kernel` is canonicalized; the historical
`download latest kernel` argument order is swapped. -/
def normalizeNV (name version : String) : String × String :=
  if lowerStr name == "kernel" then (("kernel" : String), version)
  else if name == "latest" then
    (("kernel" : String), if version == "kernel" then ("latest" : String) else version)
  else (name, version)

/-- Comparison used by `sorted(listing.items(), key=lambda kvp: kvp[0].version)`
on line 155: Python `sorted` is an ascending stable sort on the key, and
plain Python string comparison is lexicographic on code points. -/
def entryLE (a b : Identifier × List TemplateDescriptor) : Prop :=
  verLe a.1.version b.1.version

instance : DecidableRel entryLE :=
  fun a b => inferInstanceAs (Decidable (verLe a.1.version b.1.version))

instance : IsTotal (Identifier × List TemplateDescriptor) entryLE :=
  ⟨fun a b => le_total a.1.version.data b.1.version.data⟩

instance : IsTrans (Identifier × List TemplateDescriptor) entryLE :=
  ⟨fun _ _ _ h h2 => le_trans h h2⟩

/-- Comparison used by `sorted(..., key=lambda l: l[1])` on line 177. -/
def pairLE (a b : Nat × String) : Prop := verLe a.2 b.2

instance : DecidableRel pairLE :=
  fun a b => inferInstanceAs (Decidable (verLe a.2 b.2))

/-- Lines 176-177: the prompt table, pairing each descriptor with its index
in `descriptors` (`descriptors.index(desc)`) and its depot name, sorted by
depot name. -/
def optionsTable (descriptors : List TemplateDescriptor) : List (Nat × String) :=
  List.insertionSort pairLE
    (descriptors.map (fun desc => (descriptors.indexOf desc, desc.depotName)))

/-- Lines 165-190: choose a single descriptor for the already-selected
identifier.  `answer` is the reply to the `Which depot?` prompt, already
validated by `click.Choice` at the boundary (`none` means the caller
accepted the default, which is `options_table[0][1]`). -/
def selectDescriptor (ident : Identifier) (descriptors : List TemplateDescriptor)
    (name version depot : String) (answer : Option String) : DownloadOutcome :=
  if descriptors.length == 0 then
    .aborted ("No templates for " ++ name ++ " were found with the version " ++ version)
  else if descriptors.length > 1 then
    if name == "kernel" && depot == "auto"
        && (descriptors.map (·.depotName)).contains "purdueros-mainline" then
      -- line 172 binds `descriptor` to the filtered LIST (there is no `[0]`
      -- unlike lines 182/184/186), so the later `descriptor.depot` access
      -- raises AttributeError
      .attrError
    else
      let tbl := optionsTable descriptors
      let result := answer.getD ((tbl.head?.map (·.2)).getD "")
      if (tbl.map (fun p => toString p.1)).contains result then
        -- line 182: `options_table[int(result)]` indexes the SORTED table
        -- by position, not by the displayed index tag
        match tbl.get? ((parseNat result).getD 0) with
        | none => .indexError
        | some p =>
          match (descriptors.filter (·.depotName == p.2)).head? with
          | none => .indexError
          | some d => .ok ident d true
      else
        match (descriptors.filter (·.depotName == result)).head? with
        | none => .indexError
        | some d => .ok ident d true
  else if depot == "auto" || (descriptors.head?.map (·.depotName) == some depot) then
    match descriptors.head? with
    | none => .indexError
    | some d => .ok ident d false
  else
    .aborted ("Could not find a depot to download " ++ name ++ " " ++ version)

/-- Line 138: restrict the listing to entries whose identifier has the
requested name. -/
def nameFilter (listing : Listing) (name : String) : Listing :=
  listing.filter (fun e => e.1.name == name)

/-- Line 145: all depot names occurring in the listing values. -/
def depotNames (listing : Listing) : List String :=
  (listing.map (fun e => e.2.map (·.depotName))).flatten

/-- Lines 149-150: keep only entries offered by `depot`, and within each
kept entry only the descriptors of `depot`. -/
def depotFilter (listing : Listing) (depot : String) : Listing :=
  (listing.filter (fun e => (e.2.map (·.depotName)).contains depot)).map
    (fun e => (e.1, e.2.filter (fun d => d.depotName == depot)))

/-- Line 155: `OrderedDict(sorted(listing.items(), key=...)).popitem()` pops
the last item of the ascending sort, i.e. an entry of maximal version. -/
def latestEntry (listing : Listing) : Option (Identifier × List TemplateDescriptor) :=
  (List.insertionSort entryLE listing).getLast?

/-- Lines 132-202 of `download`, after argument normalization.  The depot
filter (lines 144-150) runs BEFORE the version selection (lines 154-162). -/
def downloadNormalized (listing0 : Listing) (name version depot : String)
    (noCheck : Bool) (answer : Option String) : DownloadOutcome :=
  if version == "latest" || depot == "auto" || !noCheck then
    let listing1 := nameFilter listing0 name
    if listing1.length == 0 then
      .aborted ("No templates were found with the name " ++ name)
    else if depot != "auto" && !((depotNames listing1).contains depot) then
      -- lines 145-148
      .aborted ("No templates for " ++ name ++ " were found on " ++ depot)
    else
      let listing2 := if depot != "auto" then depotFilter listing1 depot else listing1
      if version == "latest" then
        match latestEntry listing2 with
        | none => .indexError
        | some e => selectDescriptor e.1 e.2 name version depot answer
      else if !((listing2.map (fun e => e.1.version)).contains version) then
        -- lines 158-161
        .aborted ("No templates for " ++ name ++ " were found with the version " ++ version)
      else
        match (listing2.filter (fun e => e.1.version == version)).head? with
        | none => .indexError
        | some e => selectDescriptor e.1 e.2 name version depot answer
  else
    -- lines 191-196: no-check fast path; `get_depot_config` is external and
    -- yields a descriptor of the named depot with online=True, offline=False
    .ok ⟨name, version⟩ ⟨depot, true, false⟩ false

/-- Lines 119-202: the `download` command (normalization, then the checked
resolution body). -/
def download (listing0 : Listing) (name0 version0 depot : String)
    (noCheck : Bool) (answer : Option String) : DownloadOutcome :=
  downloadNormalized listing0 (normalizeNV name0 version0).1 (normalizeNV name0 version0).2
    depot noCheck answer

/-- Modelled from the spec: the element type returned by
`local.get_local_templates` (module `prosconductor.providers.local`, which
is not part of this repository snapshot).  Section 4.4 of the spec gives
each locally stored template a version and a hosting depot; the conductor
reads both `t.depot_registrar` and `t.depot` on it, kept here as separate
string fields. -/
structure LocalTemplate where
  name : String
  version : String
  depot_registrar : String
  depot : String
deriving DecidableEq

/-- Comparison used by `sorted(templates, key=lambda t: t.version)` on
lines 219 and 267. -/
def tmplLE (a b : LocalTemplate) : Prop := verLe a.version b.version

instance : DecidableRel tmplLE :=
  fun a b => inferInstanceAs (Decidable (verLe a.version b.version))

/-- Outcome of the `new`/`upgrade` command bodies.  `ok t` means control
reached the final `local.create_project`/`local.upgrade_project` call with
template `t`; `nameError` models reading the never-assigned Python local
`depot_registrar`; `indexError` models `templates[0]` on an empty list. -/
inductive LocalOutcome where
  | ok (t : LocalTemplate)
  | aborted (msg : String)
  | nameError
  | indexError
deriving DecidableEq

/-- Lines 228-231: the depot auto-resolution value: `purdueros-mainline`
when it occurs among the `t.depot_registrar` values, else
`[t.depot for t in templates][0]`. -/
def autoDepot (ts : List LocalTemplate) : String :=
  if (ts.map (·.depot_registrar)).contains "purdueros-mainline" then
    "purdueros-mainline"
  else ((ts.map (·.depot)).head?).getD ""

/-- Line 233: `[t for t in templates if t.depot_registrar == depot_registrar]`.
When the explicit-depot path was taken, the Python local `depot_registrar`
was never assigned (modelled by `reg = none`): evaluating the condition on
the first element raises NameError, while an empty `templates` yields `[]`
without ever evaluating the condition. -/
def filterByRegistrar (ts : List LocalTemplate) (reg : Option String) :
    Except Unit (List LocalTemplate) :=
  match ts, reg with
  | [], _ => .ok []
  | _ :: _, none => .error ()
  | ts, some r => .ok (ts.filter (·.depot_registrar == r))

/-- Lines 211-236 (and, verbatim, lines 258-284): the shared body of `new`
and `upgrade` up to the selection of `template = templates[0]`.
`kernelArg`/`depotArg` are `none` when the CLI default (`latest`/`auto`) is
used: the source compares with `is`, which holds for the interned default
literal and fails for a user-supplied string. -/
def resolveLocal (templates : List LocalTemplate)
    (kernelArg depotArg : Option String) : LocalOutcome :=
  if templates.length == 0 then
    -- lines 213-216
    .aborted ("No templates have been downloaded! Use `pros conduct download` to download the latest kernel.")
  else
    let kernel := kernelArg.getD "latest"
    let kernelVersion :=
      if kernelArg.isNone then
        -- line 219: `sorted(templates, key=lambda t: t.version)[0].version`
        -- takes the FIRST element of the ascending sort
        (((List.insertionSort tmplLE templates).head?).map (·.version)).getD kernel
      else kernel
    let templates1 := templates.filter (·.version == kernelVersion)
    let step :=
      if depotArg.isNone then
        -- lines 222-232
        let templates2 := templates1.filter (·.version == kernelVersion)
        if templates2.length == 0 then
          Except.error ("No templates exist for " ++ kernelVersion)
        else Except.ok (templates2, some (autoDepot templates2))
      else Except.ok (templates1, (none : Option String))
    match step with
    | .error m => .aborted m
    | .ok (ts, reg) =>
      match filterByRegistrar ts reg with
      | .error _ => .nameError
      | .ok ts2 =>
        match ts2.head? with
        | some t => .ok t
        | none =>
          -- line 235 formats `depot_registrar` inside the no-match message:
          -- NameError when it was never assigned; otherwise the message is
          -- echoed WITHOUT aborting and line 236 `templates[0]` raises
          -- IndexError
          match reg with
          | none => .nameError
          | some _ => .indexError

/-- Lines 206-240: the `new` command (`resolveLocal`, then the external
`local.create_project`). -/
def newProject (templates : List LocalTemplate)
    (kernelArg depotArg : Option String) : LocalOutcome :=
  resolveLocal templates kernelArg depotArg

/-- Lines 253-288: the `upgrade` command; its body duplicates `new` line for
line and then calls the external `local.upgrade_project`. -/
def upgradeProject (templates : List LocalTemplate)
    (kernelArg depotArg : Option String) : LocalOutcome :=
  resolveLocal templates kernelArg depotArg

/-- A registered depot as listed by `utils.get_depot_configs`; `rm-depot`
reads the name and the location. -/
structure DepotConfig where
  name : String
  location : String
deriving DecidableEq

/-- Result of `rm-depot`: the registry after the command, the error raised
(if any), and the names of the depots that were deleted. -/
structure RemoveResult where
  registry : List DepotConfig
  error : Option String
  deleted : List String
deriving DecidableEq

/-- Lines 71-77: `remove_depot`.  The mainline guard raises BadParameter
before `get_depot_configs` is consulted, so nothing is resolved or
deleted. -/
def removeDepot (registry : List DepotConfig) (name : String) : RemoveResult :=
  if name == "purdueros-mainline" then
    { registry := registry
      error := some ("Cannot delete purdueros-mainline!")
      deleted := [] }
  else
    { registry := registry.filter (fun d => d.name != name)
      error := none
      deleted := (registry.filter (fun d => d.name == name)).map (·.name) }

/-! ### Helper lemmas about `getLast?` and the sorted listing -/

theorem mem_of_getLast?_eq {α : Type} :
    ∀ (l : List α) (y : α), l.getLast? = some y → y ∈ l := by
  intro l
  induction l with
  | nil => intro y h; simp [List.getLast?] at h
  | cons a l ih =>
    intro y h
    cases l with
    | nil =>
      simp [List.getLast?] at h
      simp [h]
    | cons b l2 =>
      rw [List.getLast?_cons_cons] at h
      exact List.mem_cons_of_mem a (ih y h)

theorem exists_getLast?_eq {α : Type} :
    ∀ (l : List α), l ≠ [] → ∃ y, l.getLast? = some y := by
  intro l
  induction l with
  | nil => intro h; exact absurd rfl h
  | cons a l ih =>
    intro _
    cases l with
    | nil => exact ⟨a, rfl⟩
    | cons b l2 =>
      obtain ⟨y, hy⟩ := ih (by simp)
      exact ⟨y, by rw [List.getLast?_cons_cons]; exact hy⟩

theorem rel_of_pairwise_getLast {α : Type} {r : α → α → Prop} :
    ∀ (l : List α) (x y : α), l.Pairwise r → x ∈ l → l.getLast? = some y →
      r x y ∨ x = y := by
  intro l
  induction l with
  | nil => intro x y _ hx _; cases hx
  | cons a l ih =>
    intro x y hp hx hl
    cases l with
    | nil =>
      simp [List.getLast?] at hl
      simp at hx
      subst hx; subst hl
      exact Or.inr rfl
    | cons b l2 =>
      rw [List.getLast?_cons_cons] at hl
      rcases List.mem_cons.mp hx with hxa | hxl
      · subst hxa
        have hy : y ∈ b :: l2 := mem_of_getLast?_eq _ _ hl
        exact Or.inl ((List.pairwise_cons.mp hp).1 y hy)
      · exact ih x y (List.pairwise_cons.mp hp).2 hxl hl

theorem latestEntry_mem {listing : Listing} {e : Identifier × List TemplateDescriptor}
    (h : latestEntry listing = some e) : e ∈ listing :=
  (List.perm_insertionSort entryLE listing).mem_iff.mp (mem_of_getLast?_eq _ _ h)

theorem latestEntry_isSome (listing : Listing) (h : listing ≠ []) :
    ∃ e, latestEntry listing = some e := by
  apply exists_getLast?_eq
  intro hnil
  apply h
  have hperm := List.perm_insertionSort entryLE listing
  rw [hnil] at hperm
  exact hperm.symm.eq_nil

theorem latestEntry_max {listing : Listing} {e : Identifier × List TemplateDescriptor}
    (h : latestEntry listing = some e)
    {f : Identifier × List TemplateDescriptor} (hf : f ∈ listing) :
    verLe f.1.version e.1.version := by
  have hs : List.Pairwise entryLE (List.insertionSort entryLE listing) :=
    List.sorted_insertionSort entryLE listing
  have hmem : f ∈ List.insertionSort entryLE listing :=
    (List.perm_insertionSort entryLE listing).mem_iff.mpr hf
  rcases rel_of_pairwise_getLast _ f e hs hmem h with h1 | h1
  · exact h1
  · subst h1; exact le_refl _

theorem normalizeNV_latest (name0 : String) : (normalizeNV name0 "latest").2 = "latest" := by
  unfold normalizeNV
  split
  · rfl
  · split
    · simp
    · rfl

theorem downloadNormalized_latest_explicit_eq
    (listing0 : Listing) (nm depot : String) (answer : Option String) (noCheck : Bool)
    (e : Identifier × List TemplateDescriptor)
    (h1 : nameFilter listing0 nm ≠ [])
    (h2 : depot ≠ "auto")
    (h3 : depot ∈ depotNames (nameFilter listing0 nm))
    (hE : latestEntry (depotFilter (nameFilter listing0 nm) depot) = some e) :
    downloadNormalized listing0 nm "latest" depot noCheck answer =
      selectDescriptor e.1 e.2 nm "latest" depot answer := by
  have b1 : ((nameFilter listing0 nm).length == 0) = false := by
    simp only [beq_eq_false_iff_ne, ne_eq, List.length_eq_zero]
    exact h1
  have b2 : (depot != "auto") = true := by
    simp only [bne_iff_ne, ne_eq]; exact h2
  have b3 : ((depotNames (nameFilter listing0 nm)).contains depot) = true := by
    simp [h3]
  unfold downloadNormalized
  simp [b1, b2, b3, hE, h3]

theorem downloadNormalized_latest_explicit
    (listing0 : Listing) (nm depot : String) (answer : Option String)
    (hdepot : depot ≠ "auto")
    (hhost : ∃ e ∈ listing0, e.1.name = nm ∧ depot ∈ e.2.map (·.depotName))
    (huniq : ∀ e ∈ listing0, (e.2.filter (fun d => d.depotName == depot)).length ≤ 1) :
    ∃ ident desc,
      downloadNormalized listing0 nm "latest" depot false answer =
        DownloadOutcome.ok ident desc false ∧
      desc.depotName = depot ∧
      ident.name = nm ∧
      (∃ e ∈ listing0, e.1 = ident ∧ desc ∈ e.2) ∧
      (∀ e ∈ listing0, e.1.name = nm → depot ∈ e.2.map (·.depotName) →
        verLe e.1.version ident.version) := by
  obtain ⟨e0, he0, he0name, he0depot⟩ := hhost
  have he0f : e0 ∈ nameFilter listing0 nm := by
    unfold nameFilter
    exact List.mem_filter.mpr ⟨he0, by simp [he0name]⟩
  have h2 : (depot != "auto") = true := by
    simp only [bne_iff_ne, ne_eq]; exact hdepot
  have hmemdn : depot ∈ depotNames (nameFilter listing0 nm) := by
    unfold depotNames
    exact List.mem_flatten.mpr ⟨e0.2.map (·.depotName), List.mem_map_of_mem _ he0f, he0depot⟩
  have he0c : ((e0.2.map (·.depotName)).contains depot) = true := by simp [he0depot]
  have he0img : (e0.1, e0.2.filter (fun d => d.depotName == depot)) ∈
      depotFilter (nameFilter listing0 nm) depot := by
    unfold depotFilter
    exact List.mem_map_of_mem _ (List.mem_filter.mpr ⟨he0f, he0c⟩)
  obtain ⟨E, hE⟩ := latestEntry_isSome _ (List.ne_nil_of_mem he0img)
  have hEmem : E ∈ depotFilter (nameFilter listing0 nm) depot := latestEntry_mem hE
  have hEdec : ∃ f ∈ nameFilter listing0 nm,
      ((f.2.map (·.depotName)).contains depot) = true ∧
      E = (f.1, f.2.filter (fun d => d.depotName == depot)) := by
    unfold depotFilter at hEmem
    obtain ⟨f, hf, hfeq⟩ := List.mem_map.mp hEmem
    exact ⟨f, (List.mem_filter.mp hf).1, (List.mem_filter.mp hf).2, hfeq.symm⟩
  obtain ⟨f, hf1, hfc, hfeq⟩ := hEdec
  have hf0 : f ∈ listing0 := (List.mem_filter.mp hf1).1
  have hfname : f.1.name = nm := by
    have h := (List.mem_filter.mp hf1).2
    simpa using h
  have hlen1 : (f.2.filter (fun d => d.depotName == depot)).length ≤ 1 := huniq f hf0
  have hfcm : depot ∈ f.2.map (·.depotName) := by simpa using hfc
  have hlenpos : 0 < (f.2.filter (fun d => d.depotName == depot)).length := by
    obtain ⟨d0, hd0, hd0n⟩ := List.mem_map.mp hfcm
    exact List.length_pos.mpr (List.ne_nil_of_mem
      (List.mem_filter.mpr ⟨hd0, by simp [hd0n]⟩))
  have hlen : (f.2.filter (fun d => d.depotName == depot)).length = 1 :=
    Nat.le_antisymm hlen1 hlenpos
  obtain ⟨d, hd⟩ := List.length_eq_one.mp hlen
  have hdmem : d ∈ f.2.filter (fun d => d.depotName == depot) := by
    rw [hd]; exact List.mem_singleton_self d
  have hddepot : d.depotName = depot := by
    have h := (List.mem_filter.mp hdmem).2
    simpa using h
  have hdf2 : d ∈ f.2 := (List.mem_filter.mp hdmem).1
  have hsel : selectDescriptor E.1 E.2 nm "latest" depot answer =
      DownloadOutcome.ok E.1 d false := by
    rw [hfeq]
    simp only [hd]
    unfold selectDescriptor
    have hda : (depot == "auto") = false := by
      simp only [beq_eq_false_iff_ne, ne_eq]; exact hdepot
    simp [hda, hddepot]
  refine ⟨E.1, d, ?_, hddepot, ?_, ⟨f, hf0, ?_, hdf2⟩, ?_⟩
  · rw [downloadNormalized_latest_explicit_eq listing0 nm depot answer false E
      (List.ne_nil_of_mem he0f) hdepot hmemdn hE]
    exact hsel
  · rw [hfeq]; exact hfname
  · rw [hfeq]
  · intro e2 he2 he2name he2depot
    have he2f : e2 ∈ nameFilter listing0 nm := by
      unfold nameFilter
      exact List.mem_filter.mpr ⟨he2, by simp [he2name]⟩
    have he2c : ((e2.2.map (·.depotName)).contains depot) = true := by simp [he2depot]
    have he2img : (e2.1, e2.2.filter (fun d => d.depotName == depot)) ∈
        depotFilter (nameFilter listing0 nm) depot := by
      unfold depotFilter
      exact List.mem_map_of_mem _ (List.mem_filter.mpr ⟨he2f, he2c⟩)
    have hmax := latestEntry_max hE he2img
    simpa using hmax

theorem filterByRegistrar_some (ts : List LocalTemplate) (r : String) :
    filterByRegistrar ts (some r) = Except.ok (ts.filter (·.depot_registrar == r)) := by
  cases ts <;> rfl

/-! ### Claim theorems -/

/-- C1: for a download request with depot `auto` and resolved name `kernel`
whose resolved identifier is hosted both by `purdueros-mainline` and by a
second depot, the code takes the automatic mainline branch without
prompting, but line 172 binds `descriptor` to the filtered LIST (the `[0]`
present on every other branch is missing), so the subsequent
`descriptor.depot` access raises AttributeError instead of producing a
single resolved selection. -/
theorem download_kernel_auto_mainline_attr_error :
    download
      [(⟨"kernel", "1.0.0"⟩,
        [⟨"purdueros-mainline", true, false⟩, ⟨"alt-depot", true, false⟩])]
      "kernel" "latest" "auto" false none = DownloadOutcome.attrError := by
  decide

/-- C2: on a catalog holding versions 1.0.0, 1.2.0 and 1.1.5 of `kernel`,
the federated download path resolves `latest` to the maximum 1.2.0, but the
local-mode `new` and `upgrade` paths take `sorted(templates, ...)[0]` — the
MINIMUM — and resolve `latest` to 1.0.0. -/
theorem latest_selects_max_online_min_local :
    download
      [(⟨"kernel", "1.0.0"⟩, [⟨"purdueros-mainline", true, false⟩]),
       (⟨"kernel", "1.2.0"⟩, [⟨"purdueros-mainline", true, false⟩]),
       (⟨"kernel", "1.1.5"⟩, [⟨"purdueros-mainline", true, false⟩])]
      "kernel" "latest" "auto" false none =
      DownloadOutcome.ok ⟨"kernel", "1.2.0"⟩ ⟨"purdueros-mainline", true, false⟩ false ∧
    newProject
      [⟨"kernel", "1.0.0", "purdueros-mainline", "purdueros-mainline"⟩,
       ⟨"kernel", "1.2.0", "purdueros-mainline", "purdueros-mainline"⟩,
       ⟨"kernel", "1.1.5", "purdueros-mainline", "purdueros-mainline"⟩]
      none none =
      LocalOutcome.ok ⟨"kernel", "1.0.0", "purdueros-mainline", "purdueros-mainline"⟩ ∧
    upgradeProject
      [⟨"kernel", "1.0.0", "purdueros-mainline", "purdueros-mainline"⟩,
       ⟨"kernel", "1.2.0", "purdueros-mainline", "purdueros-mainline"⟩,
       ⟨"kernel", "1.1.5", "purdueros-mainline", "purdueros-mainline"⟩]
      none none =
      LocalOutcome.ok ⟨"kernel", "1.0.0", "purdueros-mainline", "purdueros-mainline"⟩ := by
  exact ⟨by decide, by decide, by decide⟩

/-- C3 counterexample: depot `depotA` hosts only kernel 1.0.0 while `depotB`
hosts kernel 1.1.0 (the global latest).  Requesting `latest` explicitly from
`depotA` does NOT fail: the depot filter runs before the version selection,
so the request succeeds with the lower per-depot latest 1.0.0 from
`depotA` — contrary to the claim that the version filter runs first and the
request fails when the depot lacks the globally latest identifier. -/
theorem download_latest_explicit_depot_ce :
    download
      [(⟨"kernel", "1.1.0"⟩, [⟨"depotB", true, false⟩]),
       (⟨"kernel", "1.0.0"⟩, [⟨"depotA", true, false⟩])]
      "kernel" "latest" "depotA" false none =
      DownloadOutcome.ok ⟨"kernel", "1.0.0"⟩ ⟨"depotA", true, false⟩ false := by
  decide

/-- C4: with kernel 1.0.0 hosted by the two non-default depots `zeta-depot`
and `alpha-depot` (in that catalog order), the prompt table is sorted by
depot name with the original positions as displayed tags, so it reads
`[(1, alpha-depot), (0, zeta-depot)]`; accepting the default selects the
alphabetically first depot, answering with a depot name selects that depot,
but answering with the DISPLAYED index 0 — tagged next to `zeta-depot` —
selects `alpha-depot`, because line 182 uses `options_table[int(result)]`
as a position in the sorted table rather than matching the tag. -/
theorem prompt_table_sorted_index_positional :
    optionsTable [⟨"zeta-depot", true, false⟩, ⟨"alpha-depot", true, false⟩] =
      [(1, "alpha-depot"), (0, "zeta-depot")] ∧
    download
      [(⟨"kernel", "1.0.0"⟩, [⟨"zeta-depot", true, false⟩, ⟨"alpha-depot", true, false⟩])]
      "kernel" "latest" "auto" false none =
      DownloadOutcome.ok ⟨"kernel", "1.0.0"⟩ ⟨"alpha-depot", true, false⟩ true ∧
    download
      [(⟨"kernel", "1.0.0"⟩, [⟨"zeta-depot", true, false⟩, ⟨"alpha-depot", true, false⟩])]
      "kernel" "latest" "auto" false (some "zeta-depot") =
      DownloadOutcome.ok ⟨"kernel", "1.0.0"⟩ ⟨"zeta-depot", true, false⟩ true ∧
    download
      [(⟨"kernel", "1.0.0"⟩, [⟨"zeta-depot", true, false⟩, ⟨"alpha-depot", true, false⟩])]
      "kernel" "latest" "auto" false (some "0") =
      DownloadOutcome.ok ⟨"kernel", "1.0.0"⟩ ⟨"alpha-depot", true, false⟩ true := by
  exact ⟨by decide, by decide, by decide, by decide⟩

/-- C5: invoking `new` (or `upgrade`) with a non-empty local catalog and an
explicit depot argument never assigns the Python local `depot_registrar`
(lines 222-232 only run when `depot is auto`), yet line 233 reads it
unconditionally, so the command crashes with NameError — even when the
requested depot is exactly the one hosting the template — instead of
completing the depot filter. -/
theorem local_explicit_depot_name_error :
    newProject [⟨"kernel", "1.0.0", "purdueros-mainline", "purdueros-mainline"⟩]
      none (some "purdueros-mainline") = LocalOutcome.nameError ∧
    upgradeProject [⟨"kernel", "1.0.0", "purdueros-mainline", "purdueros-mainline"⟩]
      none (some "purdueros-mainline") = LocalOutcome.nameError := by
  exact ⟨by decide, by decide⟩

/-- C6: local-mode resolution (`new` and `upgrade`) against an empty local
catalog aborts immediately — before any version or depot filtering, whatever
the kernel and depot arguments are — with the distinct message instructing
the user to run `pros conduct download` first (it is not the `NotFound`
style `No templates were found ...` message of the federated path). -/
theorem local_empty_catalog_aborts_with_download_hint
    (kernelArg depotArg : Option String) :
    newProject [] kernelArg depotArg =
      LocalOutcome.aborted
        ("No templates have been downloaded! Use `pros conduct download` to download the latest kernel.") ∧
    upgradeProject [] kernelArg depotArg =
      LocalOutcome.aborted
        ("No templates have been downloaded! Use `pros conduct download` to download the latest kernel.") := by
  exact ⟨rfl, rfl⟩

/-- C9: when the registrar filter of line 233 leaves zero templates in the
auto-depot path, the no-match branch of lines 234-235 only echoes the
message — it lacks the abort present on every other failure branch — and
line 236 `templates[0]` is then evaluated on the empty list, raising
IndexError.  Here the single local template lists `alpha` as its registrar
value and `beta` as its depot value, so the fallback auto-resolution (line
231, which reads `t.depot` but is later compared against
`t.depot_registrar`) produces an empty filter. -/
theorem local_empty_depot_filter_index_error :
    newProject [⟨"kernel", "1.0.0", "alpha", "beta"⟩] (some "1.0.0") none =
      LocalOutcome.indexError ∧
    upgradeProject [⟨"kernel", "1.0.0", "alpha", "beta"⟩] (some "1.0.0") none =
      LocalOutcome.indexError := by
  exact ⟨by decide, by decide⟩

/-- C10: removing a depot named `purdueros-mainline` is rejected by the
guard at lines 72-73 before `get_depot_configs` is consulted: for every
registry state the command raises the BadParameter error, deletes nothing,
and leaves the registry unchanged. -/
theorem remove_mainline_rejected (registry : List DepotConfig) :
    (removeDepot registry "purdueros-mainline").error =
      some ("Cannot delete purdueros-mainline!") ∧
    (removeDepot registry "purdueros-mainline").registry = registry ∧
    (removeDepot registry "purdueros-mainline").deleted = [] := by
  exact ⟨rfl, rfl, rfl⟩

/-- C3 (amended): `download` applies the depot filter BEFORE the version
filter.  For every request with version `latest` and an explicit depot that
hosts at least one offering of the (normalized) name, resolution succeeds
with a descriptor of that depot whose identifier has the maximal version
among THAT depot's offerings of the name (a per-depot notion of latest) —
it does not fail when some other depot hosts a globally higher version.
The uniqueness hypothesis is the catalog invariant that a depot appears at
most once per identifier. -/
theorem download_latest_explicit_depot_per_depot_max
    (listing0 : Listing) (name0 depot : String) (answer : Option String)
    (hdepot : depot ≠ "auto")
    (hhost : ∃ e ∈ listing0, e.1.name = (normalizeNV name0 "latest").1 ∧
      depot ∈ e.2.map (·.depotName))
    (huniq : ∀ e ∈ listing0, (e.2.filter (fun d => d.depotName == depot)).length ≤ 1) :
    ∃ ident desc,
      download listing0 name0 "latest" depot false answer =
        DownloadOutcome.ok ident desc false ∧
      desc.depotName = depot ∧
      ident.name = (normalizeNV name0 "latest").1 ∧
      (∃ e ∈ listing0, e.1 = ident ∧ desc ∈ e.2) ∧
      (∀ e ∈ listing0, e.1.name = (normalizeNV name0 "latest").1 →
        depot ∈ e.2.map (·.depotName) → verLe e.1.version ident.version) := by
  unfold download
  rw [normalizeNV_latest]
  exact downloadNormalized_latest_explicit listing0 _ depot answer hdepot hhost huniq

/-- Witness for the amended C3 theorem at the counterexample catalog:
`depotA` hosts only kernel 1.0.0 while `depotB` hosts 1.1.0, and the
request `(kernel, latest, depotA)` resolves to 1.0.0 from `depotA`. -/
theorem download_latest_explicit_depot_per_depot_max_w :
    (("depotA" : String) ≠ "auto") ∧
    (∃ e ∈ ([(⟨"kernel", "1.1.0"⟩, [⟨"depotB", true, false⟩]),
             (⟨"kernel", "1.0.0"⟩, [⟨"depotA", true, false⟩])] : Listing),
        e.1.name = (normalizeNV "kernel" "latest").1 ∧
        "depotA" ∈ e.2.map (·.depotName)) ∧
    (∀ e ∈ ([(⟨"kernel", "1.1.0"⟩, [⟨"depotB", true, false⟩]),
             (⟨"kernel", "1.0.0"⟩, [⟨"depotA", true, false⟩])] : Listing),
        (e.2.filter (fun d => d.depotName == "depotA")).length ≤ 1) ∧
    (∃ ident desc,
      download
          [(⟨"kernel", "1.1.0"⟩, [⟨"depotB", true, false⟩]),
           (⟨"kernel", "1.0.0"⟩, [⟨"depotA", true, false⟩])]
          "kernel" "latest" "depotA" false none =
        DownloadOutcome.ok ident desc false ∧
      desc.depotName = "depotA" ∧
      ident.name = (normalizeNV "kernel" "latest").1 ∧
      (∃ e ∈ ([(⟨"kernel", "1.1.0"⟩, [⟨"depotB", true, false⟩]),
               (⟨"kernel", "1.0.0"⟩, [⟨"depotA", true, false⟩])] : Listing),
          e.1 = ident ∧ desc ∈ e.2) ∧
      (∀ e ∈ ([(⟨"kernel", "1.1.0"⟩, [⟨"depotB", true, false⟩]),
               (⟨"kernel", "1.0.0"⟩, [⟨"depotA", true, false⟩])] : Listing),
          e.1.name = (normalizeNV "kernel" "latest").1 →
          "depotA" ∈ e.2.map (·.depotName) → verLe e.1.version ident.version)) :=
  ⟨by decide, by decide, by decide,
    download_latest_explicit_depot_per_depot_max
      [(⟨"kernel", "1.1.0"⟩, [⟨"depotB", true, false⟩]),
       (⟨"kernel", "1.0.0"⟩, [⟨"depotA", true, false⟩])]
      "kernel" "depotA" none (by decide) (by decide) (by decide)⟩

/-- C7: a download request naming an explicit depot that occurs nowhere
among the descriptors of the requested (normalized) name aborts with the
`No templates for NAME were found on DEPOT` message, naming the unmatched
depot — it never falls back to a different depot. -/
theorem download_unknown_depot_aborts
    (listing0 : Listing) (name0 version0 depot : String) (answer : Option String)
    (hdepot : depot ≠ "auto")
    (hname : nameFilter listing0 (normalizeNV name0 version0).1 ≠ [])
    (hmiss : depot ∉ depotNames (nameFilter listing0 (normalizeNV name0 version0).1)) :
    download listing0 name0 version0 depot false answer =
      DownloadOutcome.aborted
        ("No templates for " ++ (normalizeNV name0 version0).1 ++ " were found on " ++ depot) := by
  unfold download downloadNormalized
  have h0 : ((normalizeNV name0 version0).2 == "latest" || depot == "auto" || !false) = true := by
    simp
  have h1 : ((nameFilter listing0 (normalizeNV name0 version0).1).length == 0) = false := by
    simp only [beq_eq_false_iff_ne, ne_eq, List.length_eq_zero]
    exact hname
  have h2 : (depot != "auto") = true := by
    simp only [bne_iff_ne, ne_eq]
    exact hdepot
  have h3 : ((depotNames (nameFilter listing0 (normalizeNV name0 version0).1)).contains depot)
      = false := by
    simp [hmiss]
  simp only [h0, h1, h2, h3, Bool.not_false, Bool.and_true, if_true, if_false,
    Bool.false_eq_true, if_pos]
  simp

/-- Witness for C7: `depotB` hosts nothing named `kernel`, so the request
`(kernel, 1.0.0, depotB)` aborts naming `depotB`. -/
theorem download_unknown_depot_aborts_w :
    (("depotB" : String) ≠ "auto") ∧
    (nameFilter [(⟨"kernel", "1.0.0"⟩, [⟨"depotA", true, false⟩])]
      (normalizeNV "kernel" "1.0.0").1 ≠ []) ∧
    ("depotB" ∉ depotNames (nameFilter [(⟨"kernel", "1.0.0"⟩, [⟨"depotA", true, false⟩])]
      (normalizeNV "kernel" "1.0.0").1)) ∧
    download [(⟨"kernel", "1.0.0"⟩, [⟨"depotA", true, false⟩])]
        "kernel" "1.0.0" "depotB" false none =
      DownloadOutcome.aborted
        ("No templates for " ++ (normalizeNV "kernel" "1.0.0").1 ++ " were found on " ++ "depotB") :=
  ⟨by decide, by decide, by decide,
    download_unknown_depot_aborts _ "kernel" "1.0.0" "depotB" none
      (by decide) (by decide) (by decide)⟩

/-- C8: in local mode (`new` and `upgrade` share the body) with the depot
argument left as the `auto` default, when the explicitly requested version
is hosted locally, resolution completes without any interactive prompt
(the local path has no prompting code at all) and selects a template whose
registrar value is the auto-resolution target: `purdueros-mainline` when it
is among the hosts, else the depot of the first hosting template
encountered in catalog order (`autoDepot`).  The hypothesis `heq` is the
intended reading that the `depot` and `depot_registrar` attributes of a
local template both name its hosting depot. -/
theorem local_auto_depot_resolution
    (templates : List LocalTemplate) (v : String)
    (heq : ∀ t ∈ templates, t.depot = t.depot_registrar)
    (hv : templates.filter (·.version == v) ≠ []) :
    ∃ t, newProject templates (some v) none = LocalOutcome.ok t ∧
      upgradeProject templates (some v) none = LocalOutcome.ok t ∧
      t ∈ templates ∧ t.version = v ∧
      t.depot_registrar = autoDepot (templates.filter (·.version == v)) := by
  have htane : templates ≠ [] := by
    obtain ⟨ta, hta⟩ := List.exists_mem_of_ne_nil _ hv
    exact List.ne_nil_of_mem (List.mem_filter.mp hta).1
  have hts_sub : ∀ t ∈ templates.filter (·.version == v), t ∈ templates ∧ t.version = v := by
    intro t ht
    have h := List.mem_filter.mp ht
    exact ⟨h.1, by simpa using h.2⟩
  have hfil_ne : (templates.filter (·.version == v)).filter
      (·.depot_registrar == autoDepot (templates.filter (·.version == v))) ≠ [] := by
    by_cases hm :
        "purdueros-mainline" ∈ (templates.filter (·.version == v)).map (·.depot_registrar)
    · obtain ⟨t0, ht0, ht0r⟩ := List.mem_map.mp hm
      have hrm : autoDepot (templates.filter (·.version == v)) = "purdueros-mainline" := by
        unfold autoDepot
        simp [hm]
      apply List.ne_nil_of_mem (a := t0)
      exact List.mem_filter.mpr ⟨ht0, by simp [ht0r, hrm]⟩
    · obtain ⟨t1, rest, hcons⟩ := List.exists_cons_of_ne_nil hv
      have ht1mem : t1 ∈ templates.filter (·.version == v) := by
        rw [hcons]; exact List.mem_cons_self t1 rest
      have hrt : autoDepot (templates.filter (·.version == v)) = t1.depot := by
        unfold autoDepot
        rw [if_neg (by simpa using hm)]
        rw [hcons]
        simp
      have hreg : t1.depot = t1.depot_registrar := heq t1 (hts_sub t1 ht1mem).1
      apply List.ne_nil_of_mem (a := t1)
      exact List.mem_filter.mpr ⟨ht1mem, by simp [hrt, ← hreg]⟩
  obtain ⟨t0, tail, hfil⟩ := List.exists_cons_of_ne_nil hfil_ne
  have ht0mem : t0 ∈ (templates.filter (·.version == v)).filter
      (·.depot_registrar == autoDepot (templates.filter (·.version == v))) := by
    rw [hfil]; exact List.mem_cons_self t0 tail
  have ht0ts : t0 ∈ templates.filter (·.version == v) := (List.mem_filter.mp ht0mem).1
  have ht0reg : t0.depot_registrar = autoDepot (templates.filter (·.version == v)) := by
    have h := (List.mem_filter.mp ht0mem).2
    simpa using h
  have heval : resolveLocal templates (some v) none = LocalOutcome.ok t0 := by
    unfold resolveLocal
    have b0 : (templates.length == 0) = false := by
      simp only [beq_eq_false_iff_ne, ne_eq, List.length_eq_zero]; exact htane
    have hfe : (templates.filter (·.version == v)).filter (·.version == v) =
        templates.filter (·.version == v) :=
      List.filter_eq_self.mpr (fun a ha => (List.mem_filter.mp ha).2)
    have b2 : ((templates.filter (·.version == v)).length == 0) = false := by
      simp only [beq_eq_false_iff_ne, ne_eq, List.length_eq_zero]; exact hv
    simp only [b0, Bool.false_eq_true, if_false, Option.getD_some, Option.isNone_some,
      Option.isNone_none, if_true, hfe, b2, filterByRegistrar_some, hfil]
    rfl
  exact ⟨t0, heval, heval, (hts_sub t0 ht0ts).1, (hts_sub t0 ht0ts).2, ht0reg⟩

/-- Witness for C8: kernel 1.0.0 hosted locally by `purdueros-mainline` and
by `other-depot`; auto-resolution picks the mainline host. -/
theorem local_auto_depot_resolution_w :
    (∀ t ∈ ([⟨"kernel", "1.0.0", "purdueros-mainline", "purdueros-mainline"⟩,
             ⟨"kernel", "1.0.0", "other-depot", "other-depot"⟩] : List LocalTemplate),
        t.depot = t.depot_registrar) ∧
    (([⟨"kernel", "1.0.0", "purdueros-mainline", "purdueros-mainline"⟩,
       ⟨"kernel", "1.0.0", "other-depot", "other-depot"⟩] : List LocalTemplate).filter
        (·.version == "1.0.0") ≠ []) ∧
    (∃ t, newProject
          [⟨"kernel", "1.0.0", "purdueros-mainline", "purdueros-mainline"⟩,
           ⟨"kernel", "1.0.0", "other-depot", "other-depot"⟩]
          (some "1.0.0") none = LocalOutcome.ok t ∧
      upgradeProject
          [⟨"kernel", "1.0.0", "purdueros-mainline", "purdueros-mainline"⟩,
           ⟨"kernel", "1.0.0", "other-depot", "other-depot"⟩]
          (some "1.0.0") none = LocalOutcome.ok t ∧
      t ∈ ([⟨"kernel", "1.0.0", "purdueros-mainline", "purdueros-mainline"⟩,
            ⟨"kernel", "1.0.0", "other-depot", "other-depot"⟩] : List LocalTemplate) ∧
      t.version = "1.0.0" ∧
      t.depot_registrar = autoDepot
        (([⟨"kernel", "1.0.0", "purdueros-mainline", "purdueros-mainline"⟩,
           ⟨"kernel", "1.0.0", "other-depot", "other-depot"⟩] : List LocalTemplate).filter
          (·.version == "1.0.0"))) :=
  ⟨by decide, by decide,
    local_auto_depot_resolution
      [⟨"kernel", "1.0.0", "purdueros-mainline", "purdueros-mainline"⟩,
       ⟨"kernel", "1.0.0", "other-depot", "other-depot"⟩]
      "1.0.0" (by decide) (by decide)⟩

end Conductor
